import Mathlib

/-!
Shallow embedding of `.github/scripts/review_with_glm.py`: a single automation
script that fetches a pull-request diff from the GitHub API, asks a GLM
chat-completion endpoint for a review, and posts the reply as a PR comment.

The HTTP layer is abstracted: each function is modelled as a pure function of
the data the remote endpoint would return, and the main block is modelled as a
function producing the trace of observable events (console prints, the LLM
call, the comment post) together with a fault flag for an unhandled Python
exception (KeyError / IndexError).
-/

namespace ReviewWithGlm

/-- One record of the GitHub "list pull request files" response, as the script
uses it: `file.get('patch')` may be absent (`none`) and `file['filename']`
raises `KeyError` when absent, so both fields are `Option`s. -/
structure FileEntry where
  filename : Option String
  patch : Option String
deriving DecidableEq, Repr

/-- The accumulator loop of `get_pr_diff` (lines 22-26): for each file, if
`file.get('patch')` is truthy (present and non-empty), append
`"File: " ++ filename ++ "\n" ++ patch ++ "\n\n"`; indexing `file['filename']`
on a record without a filename raises `KeyError`, modelled as `.error ()`. -/
def get_pr_diff_fold : List FileEntry → String → Except Unit String
  | [], acc => .ok acc
  | f :: rest, acc =>
    match f.patch with
    | some p =>
      if p = "" then get_pr_diff_fold rest acc
      else
        match f.filename with
        | some fn => get_pr_diff_fold rest (acc ++ ("File: " ++ fn ++ "\n" ++ p ++ "\n\n"))
        | none => .error ()
    | none => get_pr_diff_fold rest acc

/-- `get_pr_diff`, given the decoded JSON list of changed files: runs the
accumulator loop starting from the empty string. -/
def get_pr_diff (files : List FileEntry) : Except Unit String :=
  get_pr_diff_fold files ""

/-- The fixed Thai review instruction of `ask_glm` (line 41), followed by the
raw diff text. -/
def glm_prompt (diff_text : String) : String :=
  "คุณเป็น Code Reviewer ที่เก่งที่สุด กรุณาตรวจสอบโค้ดด้านล่างนี้ (Diff) และแนะนำการปรับปรุง พร้อมทั้งชี้ช่องโหว่ความปลอดภัยหากมี ตอบเป็นภาษาไทย:\n\n" ++ diff_text

/-- The request `ask_glm` sends: fixed URL, fixed model name, and the single
user message built from the fixed instruction plus the diff. -/
structure GlmRequest where
  url : String
  model : String
  content : String
deriving DecidableEq, Repr

/-- Builds the chat-completion request of `ask_glm` (lines 30-44). -/
def glm_request (diff_text : String) : GlmRequest :=
  { url := "https://api.z.ai/api/coding/paas/v4/chat/completions"
  , model := "glm-4.7"
  , content := glm_prompt diff_text }

/-- The `message` object of one choice of the GLM response; `content` may be
absent. -/
structure GlmMessage where
  content : Option String
deriving DecidableEq, Repr

/-- One element of the `choices` array of the GLM response; `message` may be
absent. -/
structure GlmChoice where
  message : Option GlmMessage
deriving DecidableEq, Repr

/-- The decoded JSON body of the GLM response; the `choices` array itself may
be absent. -/
structure GlmResponse where
  choices : Option (List GlmChoice)
deriving DecidableEq, Repr

/-- The extraction step of `ask_glm` (line 47):
`response.json()['choices'][0]['message']['content']`. A missing `choices`
key, an empty `choices` array, a missing `message`, or a missing `content`
each raise an unhandled exception, modelled as `.error ()`. -/
def ask_glm (resp : GlmResponse) : Except Unit String :=
  match resp.choices with
  | none => .error ()
  | some [] => .error ()
  | some (c :: _) =>
    match c.message with
    | none => .error ()
    | some m =>
      match m.content with
      | none => .error ()
      | some s => .ok s

/-- A response body lacks the `choices[0].message.content` path when the
`choices` key is absent, the `choices` array is empty, the first choice has no
`message`, or that message has no `content` — exactly the four shapes on which
the indexing chain of line 47 raises. -/
def lacksContentPath (resp : GlmResponse) : Bool :=
  match resp.choices with
  | none => true
  | some [] => true
  | some (c :: _) =>
    match c.message with
    | none => true
    | some m =>
      match m.content with
      | none => true
      | some _ => false

/-- An HTTP response as received by the script from `requests.post`; the
comment-post call discards it without inspection. -/
structure HttpResponse where
  status : Nat
  body : String
deriving DecidableEq, Repr

/-- The POST request built by `post_comment_to_pr`: target URL and JSON
`body` field. -/
structure PostRequest where
  url : String
  body : String
deriving DecidableEq, Repr

/-- Everything observable about one call of `post_comment_to_pr`: the request
it sent and whether the function returned normally. -/
structure PostOutcome where
  request : PostRequest
  returned : Bool
deriving DecidableEq, Repr

/-- `post_comment_to_pr` (lines 50-59): builds the comments-endpoint URL and
the body `"## 🤖 GLM Code Review Bot\n\n" ++ message`, sends the POST,
receives some `response`, and returns without inspecting it. -/
def post_comment_to_pr (repo prNumber message : String) (response : HttpResponse) : PostOutcome :=
  { request :=
      { url := "https://api.github.com/repos/" ++ repo ++ "/issues/" ++ prNumber ++ "/comments"
      , body := "## 🤖 GLM Code Review Bot\n\n" ++ message }
  , returned := true }

/-- An observable event of one run of the script: a console print, the LLM
chat-completion call, or the comment-post call (recorded with the comment
body it submits). -/
inductive Event where
  | printLine : String → Event
  | llmCall : GlmRequest → Event
  | commentPost : String → Event
deriving DecidableEq, Repr

/-- The outcome of one run: the ordered trace of observable events, and
whether the run ended in an unhandled fault. -/
structure RunResult where
  events : List Event
  fault : Bool
deriving DecidableEq, Repr

/-- The `__main__` block (lines 62-74), as a function of the environment
(`REPO`, `PR_NUMBER`), the decoded file list the GitHub GET returns, the
decoded GLM response, and the HTTP response of the final comment post.
It prints "Fetching PR diff...", runs `get_pr_diff`; on an empty diff it
prints the no-diff line and stops; otherwise it prints "Sending to GLM...",
calls `ask_glm`, then prints "Posting comment to GitHub...", calls
`post_comment_to_pr`, and prints "Done!". A fault in `get_pr_diff` or
`ask_glm` terminates the run with `fault := true`. -/
def main_run (repo prNumber : String) (files : List FileEntry)
    (glmResp : GlmResponse) (postResp : HttpResponse) : RunResult :=
  match get_pr_diff files with
  | .error _ =>
    { events := [Event.printLine "Fetching PR diff..."], fault := true }
  | .ok diff =>
    if diff = "" then
      { events := [ Event.printLine "Fetching PR diff..."
                  , Event.printLine "No diff found or diff is too large."]
      , fault := false }
    else
      match ask_glm glmResp with
      | .error _ =>
        { events := [ Event.printLine "Fetching PR diff..."
                    , Event.printLine "Sending to GLM..."
                    , Event.llmCall (glm_request diff)]
        , fault := true }
      | .ok review =>
        { events := [ Event.printLine "Fetching PR diff..."
                    , Event.printLine "Sending to GLM..."
                    , Event.llmCall (glm_request diff)
                    , Event.printLine "Posting comment to GitHub..."
                    , Event.commentPost ((post_comment_to_pr repo prNumber review postResp).request.body)
                    , Event.printLine "Done!"]
        , fault := false }

/-- The console output of a trace: the printed lines, in order. -/
def printedLines (events : List Event) : List String :=
  events.filterMap fun e =>
    match e with
    | Event.printLine s => some s
    | _ => none

/-- Truthiness of `file.get('patch')` in Python: present and non-empty. -/
def qualifies (f : FileEntry) : Bool :=
  match f.patch with
  | some p => p != ""
  | none => false

/-- Specification-level description of one file's contribution to the diff
bundle: `some` of its section when the patch is present and non-empty (and
the filename is present), `none` otherwise. -/
def fileSectionOf (f : FileEntry) : Option String :=
  match f.patch, f.filename with
  | some p, some fn =>
      if p = "" then none else some ("File: " ++ fn ++ "\n" ++ p ++ "\n\n")
  | _, _ => none

/-- In-order concatenation of a list of strings. -/
def joinStrings : List String → String
  | [] => ""
  | s :: rest => s ++ joinStrings rest

theorem str_append_assoc (a b c : String) : a ++ b ++ c = a ++ (b ++ c) := by
  apply String.ext
  simp [String.data_append, List.append_assoc]

theorem fold_skip (e : FileEntry) (he : qualifies e = false) :
    ∀ (pre post : List FileEntry) (acc : String),
      get_pr_diff_fold (pre ++ e :: post) acc = get_pr_diff_fold (pre ++ post) acc := by
  intro pre
  induction pre with
  | nil =>
    intro post acc
    simp only [List.nil_append]
    cases hp : e.patch with
    | none => simp [get_pr_diff_fold, hp]
    | some p =>
      have hpe : p = "" := by simpa [qualifies, hp] using he
      subst hpe
      simp [get_pr_diff_fold, hp]
  | cons f pre ih =>
    intro post acc
    simp only [List.cons_append]
    cases hp : f.patch with
    | none =>
      simp only [get_pr_diff_fold, hp]
      exact ih post acc
    | some p =>
      by_cases hpe : p = ""
      · simp only [get_pr_diff_fold, hp, hpe, if_pos rfl]
        simpa [hpe] using ih post acc
      · cases hf : f.filename with
        | none => simp [get_pr_diff_fold, hp, hpe, hf]
        | some fn =>
          simp only [get_pr_diff_fold, hp, hf, if_neg hpe]
          exact ih post _

theorem fold_ok :
    ∀ (files : List FileEntry),
      (∀ f ∈ files, qualifies f = true → (f.filename).isSome) →
      ∀ acc, get_pr_diff_fold files acc =
        .ok (acc ++ joinStrings (files.filterMap fileSectionOf)) := by
  intro files
  induction files with
  | nil =>
    intro _ acc
    simp [get_pr_diff_fold, joinStrings, String.append_empty]
  | cons f rest ih =>
    intro h acc
    have hrest : ∀ g ∈ rest, qualifies g = true → (g.filename).isSome :=
      fun g hg => h g (List.mem_cons_of_mem _ hg)
    cases hp : f.patch with
    | none =>
      simp only [get_pr_diff_fold, hp, List.filterMap_cons, fileSectionOf]
      exact ih hrest acc
    | some p =>
      by_cases hpe : p = ""
      · subst hpe
        simp only [get_pr_diff_fold, hp, if_pos rfl, List.filterMap_cons, fileSectionOf]
        cases hf : f.filename with
        | none => simpa using ih hrest acc
        | some fn => simpa using ih hrest acc
      · have hfn : (f.filename).isSome :=
          h f (List.mem_cons_self _ _) (by simp [qualifies, hp, hpe])
        cases hf : f.filename with
        | none => rw [hf] at hfn; simp at hfn
        | some fn =>
          simp only [get_pr_diff_fold, hp, hf, if_neg hpe, List.filterMap_cons, fileSectionOf,
            joinStrings]
          rw [ih hrest]
          simp [hpe, joinStrings, str_append_assoc]

theorem fold_err (p : String) (hp : p ≠ "") (post : List FileEntry) :
    ∀ (pre : List FileEntry),
      (∀ f ∈ pre, qualifies f = true → (f.filename).isSome) →
      ∀ acc,
        get_pr_diff_fold
          (pre ++ ({ filename := none, patch := some p } : FileEntry) :: post) acc =
          .error () := by
  intro pre
  induction pre with
  | nil =>
    intro _ acc
    simp [get_pr_diff_fold, hp]
  | cons f pre ih =>
    intro h acc
    have hpre : ∀ g ∈ pre, qualifies g = true → (g.filename).isSome :=
      fun g hg => h g (List.mem_cons_of_mem _ hg)
    simp only [List.cons_append]
    cases hfp : f.patch with
    | none =>
      simp only [get_pr_diff_fold, hfp]
      exact ih hpre acc
    | some q =>
      by_cases hqe : q = ""
      · simp only [get_pr_diff_fold, hfp, hqe, if_pos rfl]
        exact ih hpre acc
      · have hfn : (f.filename).isSome :=
          h f (List.mem_cons_self _ _) (by simp [qualifies, hfp, hqe])
        cases hf : f.filename with
        | none => rw [hf] at hfn; simp at hfn
        | some fn =>
          simp only [get_pr_diff_fold, hfp, hf, if_neg hqe]
          exact ih hpre _

/-- C1: when `get_pr_diff` returns the empty string the run makes no LLM call
and no comment post and prints the no-diff message; when it returns a
non-empty string and the run is fault-free, the trace is exactly the six
events of the success path, with the LLM call occurring before the comment
post. -/
theorem c1_main_control_flow (repo pr : String) (files : List FileEntry)
    (glm : GlmResponse) (hres : HttpResponse) :
    (get_pr_diff files = .ok "" →
      (∀ q, Event.llmCall q ∉ (main_run repo pr files glm hres).events) ∧
      (∀ b, Event.commentPost b ∉ (main_run repo pr files glm hres).events) ∧
      Event.printLine "No diff found or diff is too large." ∈
        (main_run repo pr files glm hres).events) ∧
    (∀ d review, get_pr_diff files = .ok d → d ≠ "" → ask_glm glm = .ok review →
      (main_run repo pr files glm hres).events =
        [ Event.printLine "Fetching PR diff..."
        , Event.printLine "Sending to GLM..."
        , Event.llmCall (glm_request d)
        , Event.printLine "Posting comment to GitHub..."
        , Event.commentPost ((post_comment_to_pr repo pr review hres).request.body)
        , Event.printLine "Done!"]) := by
  constructor
  · intro h
    refine ⟨?_, ?_, ?_⟩ <;> simp [main_run, h]
  · intro d review h hd hr
    simp [main_run, h, hd, hr]

/-- C1 witness: a one-file pull request with a well-formed LLM reply produces
the six-event success trace. -/
theorem c1_main_control_flow_witness :
    (main_run "o/r" "1" [{ filename := some "a.py", patch := some "p" }]
        { choices := some [{ message := some { content := some "review" } }] }
        { status := 200, body := "" }).events =
      [ Event.printLine "Fetching PR diff..."
      , Event.printLine "Sending to GLM..."
      , Event.llmCall (glm_request "File: a.py\np\n\n")
      , Event.printLine "Posting comment to GitHub..."
      , Event.commentPost
          ((post_comment_to_pr "o/r" "1" "review" { status := 200, body := "" }).request.body)
      , Event.printLine "Done!"] :=
  (c1_main_control_flow "o/r" "1" _ _ _).2 "File: a.py\np\n\n" "review"
    rfl (by decide) rfl

/-- C2: a record with a present non-empty patch appends exactly
`"File: " ++ filename ++ "\n" ++ patch ++ "\n\n"` to the accumulator, and on
the single-file `a.py` example the bundle is exactly
`"File: a.py\n@@ -1 +1 @@\n-x\n+y\n\n\n"`. -/
theorem c2_diff_bundle_sections :
    (∀ (fn p : String) (files : List FileEntry) (acc : String), p ≠ "" →
      get_pr_diff_fold ({ filename := some fn, patch := some p } :: files) acc =
        get_pr_diff_fold files (acc ++ ("File: " ++ fn ++ "\n" ++ p ++ "\n\n"))) ∧
    get_pr_diff [{ filename := some "a.py", patch := some "@@ -1 +1 @@\n-x\n+y\n" }] =
      .ok "File: a.py\n@@ -1 +1 @@\n-x\n+y\n\n\n" := by
  constructor
  · intro fn p files acc hp
    simp [get_pr_diff_fold, hp]
  · rfl

/-- C2 witness: the appending step at the concrete record `b.py` with
patch `q`. -/
theorem c2_diff_bundle_sections_witness :
    get_pr_diff_fold [({ filename := some "b.py", patch := some "q" } : FileEntry)] "" =
      get_pr_diff_fold [] ("" ++ ("File: " ++ "b.py" ++ "\n" ++ "q" ++ "\n\n")) :=
  c2_diff_bundle_sections.1 "b.py" "q" [] "" (by decide)

/-- C3: the comment body submitted by `post_comment_to_pr` is the literal
header `"## 🤖 GLM Code Review Bot\n\n"` followed verbatim by the message,
with no transformation applied. -/
theorem c3_comment_body_header (repo pr m : String) (r : HttpResponse) :
    (post_comment_to_pr repo pr m r).request.body =
      "## 🤖 GLM Code Review Bot\n\n" ++ m := rfl

/-- C4: every LLM response lacking the `choices[0].message.content` path (in
particular one without a `choices` array, but also an empty `choices` array,
a missing `message`, or a missing `content`) makes `ask_glm` fault; in a run
whose diff is non-empty the run ends in a fault and the trace contains no
comment post, empty or fallback. -/
theorem c4_missing_content_path_faults (glm : GlmResponse) (repo pr : String)
    (files : List FileEntry) (d : String) (r : HttpResponse)
    (hc : lacksContentPath glm = true)
    (h : get_pr_diff files = .ok d) (hd : d ≠ "") :
    ask_glm glm = .error () ∧
    (main_run repo pr files glm r).fault = true ∧
    ∀ b, Event.commentPost b ∉ (main_run repo pr files glm r).events := by
  have ha : ask_glm glm = .error () := by
    obtain ⟨choices⟩ := glm
    cases choices with
    | none => rfl
    | some l =>
      cases l with
      | nil => rfl
      | cons c rest =>
        obtain ⟨msg⟩ := c
        cases msg with
        | none => rfl
        | some m =>
          obtain ⟨ct⟩ := m
          cases ct with
          | none => rfl
          | some s => simp [lacksContentPath] at hc
  refine ⟨ha, ?_, ?_⟩ <;> simp [main_run, h, hd, ha]

/-- C4 witness: a one-file pull request with a choices-less LLM response ends
in a fault. -/
theorem c4_missing_content_path_faults_witness :
    (main_run "o/r" "1" [{ filename := some "a.py", patch := some "p" }]
        { choices := none } { status := 200, body := "" }).fault = true :=
  (c4_missing_content_path_faults { choices := none } "o/r" "1"
      [{ filename := some "a.py", patch := some "p" }] "File: a.py\np\n\n"
      { status := 200, body := "" } rfl rfl (by decide)).2.1

/-- C5: an entry whose patch is absent or empty is excluded from the diff
bundle without a fault: the result equals the result on the list with that
entry removed. -/
theorem c5_patchless_entry_skipped (pre post : List FileEntry) (e : FileEntry)
    (he : e.patch = none ∨ e.patch = some "") :
    get_pr_diff (pre ++ e :: post) = get_pr_diff (pre ++ post) := by
  have hq : qualifies e = false := by
    rcases he with h | h <;> simp [qualifies, h]
  exact fold_skip e hq pre post ""

/-- C5 witness: a patch-less `b.py` entry between a real entry and the end of
the list is skipped. -/
theorem c5_patchless_entry_skipped_witness :
    get_pr_diff ([{ filename := some "a.py", patch := some "p" }] ++
        ({ filename := some "b.py", patch := none } : FileEntry) :: []) =
      get_pr_diff ([{ filename := some "a.py", patch := some "p" }] ++ []) :=
  c5_patchless_entry_skipped _ _ _ (Or.inl rfl)

/-- C6 counterexample: the comment body is not
`"## Review Bot\n\n" ++ message` — the code's header is
`"## 🤖 GLM Code Review Bot"`. -/
theorem c6_counterexample :
    (post_comment_to_pr "o/r" "1" "hello" { status := 200, body := "" }).request.body ≠
      "## Review Bot\n\nhello" := by decide

/-- C6 amended: `post_comment_to_pr` submits its POST to the
create-issue-comment endpoint with body exactly
`"## 🤖 GLM Code Review Bot\n\n" ++ message`. -/
theorem c6_amended_post_request (repo pr m : String) (r : HttpResponse) :
    (post_comment_to_pr repo pr m r).request =
      { url := "https://api.github.com/repos/" ++ repo ++ "/issues/" ++ pr ++ "/comments"
      , body := "## 🤖 GLM Code Review Bot\n\n" ++ m } := rfl

/-- C7: `post_comment_to_pr` never inspects the HTTP response of the comment
post: its outcome is the same for any two responses, it returns normally, and
the whole run is independent of that response. -/
theorem c7_post_response_ignored (repo pr m : String) (r1 r2 : HttpResponse)
    (files : List FileEntry) (glm : GlmResponse) :
    post_comment_to_pr repo pr m r1 = post_comment_to_pr repo pr m r2 ∧
    (post_comment_to_pr repo pr m r1).returned = true ∧
    main_run repo pr files glm r1 = main_run repo pr files glm r2 :=
  ⟨rfl, rfl, rfl⟩

/-- C8 counterexample: a fault-free run with a non-empty diff prints four
lines, not three; a fault-free run with an empty diff prints two lines, not
one. -/
theorem c8_counterexample :
    ((main_run "o/r" "1" [{ filename := some "a.py", patch := some "p" }]
        { choices := some [{ message := some { content := some "review" } }] }
        { status := 200, body := "" }).fault = false ∧
      (printedLines (main_run "o/r" "1" [{ filename := some "a.py", patch := some "p" }]
        { choices := some [{ message := some { content := some "review" } }] }
        { status := 200, body := "" }).events).length = 4 ∧
      (printedLines (main_run "o/r" "1" [{ filename := some "a.py", patch := some "p" }]
        { choices := some [{ message := some { content := some "review" } }] }
        { status := 200, body := "" }).events).length ≠ 3) ∧
    ((main_run "o/r" "1" [] { choices := none } { status := 200, body := "" }).fault = false ∧
      (printedLines (main_run "o/r" "1" [] { choices := none }
        { status := 200, body := "" }).events).length = 2 ∧
      (printedLines (main_run "o/r" "1" [] { choices := none }
        { status := 200, body := "" }).events).length ≠ 1) := by decide

/-- C8 amended: on a fault-free run the console output is exactly the four
lines Fetching / Sending / Posting / Done! when the diff is non-empty, and
exactly the two lines Fetching / no-diff when the diff is empty. -/
theorem c8_amended_console_output (repo pr : String) (files : List FileEntry)
    (glm : GlmResponse) (r : HttpResponse) :
    (get_pr_diff files = .ok "" →
      printedLines (main_run repo pr files glm r).events =
        ["Fetching PR diff...", "No diff found or diff is too large."]) ∧
    (∀ d review, get_pr_diff files = .ok d → d ≠ "" → ask_glm glm = .ok review →
      printedLines (main_run repo pr files glm r).events =
        ["Fetching PR diff...", "Sending to GLM...",
         "Posting comment to GitHub...", "Done!"]) := by
  constructor
  · intro h
    simp [main_run, h, printedLines]
  · intro d review h hd hr
    simp [main_run, h, hd, hr, printedLines]

/-- C8 amended witness: an empty file list gives the two-line output. -/
theorem c8_amended_console_output_witness :
    printedLines (main_run "o/r" "1" [] { choices := none }
        { status := 200, body := "" }).events =
      ["Fetching PR diff...", "No diff found or diff is too large."] :=
  (c8_amended_console_output "o/r" "1" [] { choices := none }
      { status := 200, body := "" }).1 rfl

/-- C9: an entry with a present non-empty patch but no filename makes
`get_pr_diff` fault (the Python `KeyError` on indexing the filename), provided
the entries before it do not fault themselves. -/
theorem c9_missing_filename_faults (p : String) (pre post : List FileEntry)
    (hp : p ≠ "") (hpre : ∀ f ∈ pre, qualifies f = true → (f.filename).isSome) :
    get_pr_diff (pre ++ ({ filename := none, patch := some p } : FileEntry) :: post) =
      .error () :=
  fold_err p hp post pre hpre ""

/-- C9 witness: a lone filename-less entry with patch `q` faults. -/
theorem c9_missing_filename_faults_witness :
    get_pr_diff ([] ++ ({ filename := none, patch := some "q" } : FileEntry) :: []) =
      .error () :=
  c9_missing_filename_faults "q" [] [] (by decide) (by intro f hf; simp at hf)

/-- C10: `get_pr_diff` is the in-order concatenation, over the response list,
of each qualifying file's section `"File: " ++ filename ++ "\n" ++ patch ++ "\n\n"`,
so sections appear exactly in the order the API response lists the files. -/
theorem c10_order_preserving (files : List FileEntry)
    (h : ∀ f ∈ files, qualifies f = true → (f.filename).isSome) :
    get_pr_diff files = .ok (joinStrings (files.filterMap fileSectionOf)) := by
  have hf := fold_ok files h ""
  simpa [get_pr_diff, String.empty_append] using hf

/-- C10 witness: a three-entry list (the middle one patch-less) yields the
in-order concatenation of the two qualifying sections. -/
theorem c10_order_preserving_witness :
    get_pr_diff [ ({ filename := some "a.py", patch := some "p" } : FileEntry)
                , { filename := some "bin", patch := none }
                , { filename := some "c.py", patch := some "q" } ] =
      .ok (joinStrings
        ([ ({ filename := some "a.py", patch := some "p" } : FileEntry)
         , { filename := some "bin", patch := none }
         , { filename := some "c.py", patch := some "q" } ].filterMap fileSectionOf)) :=
  c10_order_preserving _ (by decide)

end ReviewWithGlm
